import Mathlib

/-!
Verification of the data-marshaling layer (src/raylib/src/core/data.rs) of a
thin binding crate over a native compression / Base64 library.

The Rust file wraps five native calls.  The wrappers are embedded here as
functions parametrised by the native transform (the native library is not part
of the sources; where a claim needs its behavior, it is modelled from the
specification, and such definitions say so in their doc comment).

Representation choices:
- a byte buffer `&[u8]` is a `List Nat` (each element a byte value);
- the signed code-unit buffer `Vec<i8>` is a `List Int`;
- a native call returning a nullable pointer plus an out-parameter length is a
  function returning `Option (List _)`: `none` is a null result, `some buf` is
  a non-null result whose declared length `output_size` is `buf.length`
  (`from_raw_parts` reads exactly the declared number of units, so the buffer
  content beyond the pointer is exactly this list);
- a Rust panic is the `panicked` constructor of `RustOutcome`.
-/

/-- Result of a Rust call that can panic: either a returned value or a panic
with its message.  `export_data_as_code` can panic through
`CString::new(file_name).unwrap()`. -/
inductive RustOutcome (α : Type) where
  | ok : α → RustOutcome α
  | panicked : String → RustOutcome α
deriving DecidableEq

/-- Embeds `compress_data`: calls the native compression primitive; a null
result becomes `Err("could not compress data")`, otherwise the `out_length`
bytes at the returned pointer become the `Ok` value. -/
def compress_data (nativeCompress : List Nat → Option (List Nat))
    (data : List Nat) : Except String (List Nat) :=
  match nativeCompress data with
  | none => Except.error "could not compress data"
  | some buffer => Except.ok buffer

/-- Embeds `decompress_data`: same shape as `compress_data` (the source even
reuses the message "could not compress data" on its failure branch). -/
def decompress_data (nativeDecompress : List Nat → Option (List Nat))
    (data : List Nat) : Except String (List Nat) :=
  match nativeDecompress data with
  | none => Except.error "could not compress data"
  | some buffer => Except.ok buffer

/-- Embeds the stateful `filter` closure of `encode_data_base64` /
`decode_data_base64`: a mutable flag `keep` starts `true`; on every unit equal
to zero the flag is set to `false` before it is consulted, so the first zero
unit and everything after it are dropped. -/
def filterKeep {α : Type} [DecidableEq α] (z : α) : Bool → List α → List α
  | _, [] => []
  | keep, f :: rest =>
      let keep1 := if f = z then false else keep
      if keep1 then f :: filterKeep z keep1 rest else filterKeep z keep1 rest

/-- Embeds `encode_data_base64`: reads the `output_size` code units produced by
the native Base64 encoder; if the buffer contains a zero unit it is filtered
with the stateful `keep` closure, otherwise it is copied whole. -/
def encode_data_base64 (nativeEncode : List Nat → List Int)
    (data : List Nat) : List Int :=
  let s := nativeEncode data
  if s.contains 0 then filterKeep 0 true s else s

/-- Embeds `decode_data_base64`: reads the `output_size` bytes produced by the
native Base64 decoder; if the buffer contains a zero byte it is filtered with
the stateful `keep` closure, otherwise it is copied whole.  The return type is
a plain byte sequence: the function has no error channel. -/
def decode_data_base64 (nativeDecode : List Nat → List Nat)
    (data : List Nat) : List Nat :=
  let s := nativeDecode data
  if s.contains 0 then filterKeep 0 true s else s

/-- Embeds `CString::new` on the bytes of a string: fails (returns `none`) when
the bytes contain an embedded null, otherwise appends the terminating null. -/
def cstring_new (bytes : List Nat) : Option (List Nat) :=
  if bytes.contains 0 then none else some (bytes ++ [0])

/-- Embeds `export_data_as_code`: builds a C string from the file name with
`CString::new(file_name).unwrap()` — the `unwrap` panics when the name holds an
embedded null byte — then calls the native export and returns its boolean. -/
def export_data_as_code (nativeExport : List Nat → List Nat → Bool)
    (data : List Nat) (file_name : List Nat) : RustOutcome Bool :=
  match cstring_new file_name with
  | none => RustOutcome.panicked "called Result::unwrap() on an Err value: NulError"
  | some c_str => RustOutcome.ok (nativeExport data c_str)

/-- Reinterpretation of a signed 8-bit unit as an unsigned byte (Rust
`i8 as u8`): two's-complement, i.e. reduction modulo 256. -/
def i8_to_u8 (i : Int) : Nat := (i % 256).toNat

/-- Modelled from the spec: the native library's Base64 alphabet (the native
Base64 transcoder is not part of the sources; the spec names it only as
standard Base64 transcoding).  Maps a 6-bit value to its ASCII code. -/
def base64Char (n : Nat) : Nat :=
  if n < 26 then 65 + n
  else if n < 52 then 97 + (n - 26)
  else if n < 62 then 48 + (n - 52)
  else if n = 62 then 43
  else 47

/-- Modelled from the spec: the native `EncodeDataBase64` (absent from the
sources), as standard Base64 encoding with padding: each group of three bytes
becomes four ASCII code units, a trailing group of one or two bytes is padded
with the code 61 (the equals sign). -/
def encodeBase64 : List Nat → List Nat
  | [] => []
  | [a] => [base64Char (a / 4), base64Char (a % 4 * 16), 61, 61]
  | [a, b] => [base64Char (a / 4), base64Char (a % 4 * 16 + b / 16),
      base64Char (b % 16 * 4), 61]
  | a :: b :: c :: rest =>
      base64Char (a / 4) :: base64Char (a % 4 * 16 + b / 16)
        :: base64Char (b % 16 * 4 + c / 64) :: base64Char (c % 64)
        :: encodeBase64 rest

/-- Modelled from the spec: digit value of a Base64 ASCII code unit. -/
def base64Val (c : Nat) : Nat :=
  if 65 ≤ c ∧ c ≤ 90 then c - 65
  else if 97 ≤ c ∧ c ≤ 122 then c - 97 + 26
  else if 48 ≤ c ∧ c ≤ 57 then c - 48 + 52
  else if c = 43 then 62
  else if c = 47 then 63
  else 0

/-- Modelled from the spec: the native `DecodeDataBase64` (absent from the
sources), as standard Base64 decoding: each four-unit group yields three bytes,
or fewer when the group carries padding (61). -/
def decodeBase64 : List Nat → List Nat
  | a :: b :: c :: d :: rest =>
      if c = 61 then [base64Val a * 4 + base64Val b / 16]
      else if d = 61 then
        [base64Val a * 4 + base64Val b / 16,
         base64Val b % 16 * 16 + base64Val c / 4]
      else
        (base64Val a * 4 + base64Val b / 16)
          :: (base64Val b % 16 * 16 + base64Val c / 4)
          :: (base64Val c % 4 * 64 + base64Val d)
          :: decodeBase64 rest
  | _ => []

/-- Modelled from the spec: the bundled native library's compression of the
literal scenario input (the native DEFLATE implementation is absent from the
sources; the spec fixes only this one input/output pair, the literal scenario of the testable properties section). -/
def nativeCompressBundled (b : List Nat) : Option (List Nat) :=
  if b = List.replicate 10 49 then
    some [61, 193, 33, 1, 0, 0, 0, 128, 160, 77, 254, 63, 103, 3, 98]
  else none

/-- Modelled from the spec: the bundled native library's decompression on the
literal scenario bytes (inverse of the pair fixed by the spec). -/
def nativeDecompressBundled (b : List Nat) : Option (List Nat) :=
  if b = [61, 193, 33, 1, 0, 0, 0, 128, 160, 77, 254, 63, 103, 3, 98] then
    some (List.replicate 10 49)
  else none

/-- The caller-visible state around one marshaling call: the memory of the
caller's input buffer. -/
structure CallState where
  buf : List Nat
deriving DecidableEq

/-- Modelled from the spec: a marshaling call as a state transformer on the
caller's memory.  The native transforms are pure in-memory functions (per the spec:
side-effect-free, stateless; the source comment on the pointer cast states the
native compression does not modify the data), and the wrapper itself only reads
the buffer, so a call returns the state unchanged together with its value. -/
def marshalCall {α : Type} (f : List Nat → α) (st : CallState) : CallState × α :=
  (st, f st.buf)

/-- Behavior the specification describes for `export_as_code` (error-handling design): an
embedded null byte in the file name is detected before the call and surfaced
to the caller as an `InvalidArgument` error value. -/
inductive ExportError where
  | InvalidArgument
deriving DecidableEq

/-- Behavior the specification describes for `export_as_code`, written from
the spec's words for comparison with the embedded source function. -/
def export_as_code_spec (nativeExport : List Nat → List Nat → Bool)
    (data : List Nat) (file_name : List Nat) : Except ExportError Bool :=
  if file_name.contains 0 then Except.error ExportError.InvalidArgument
  else Except.ok (nativeExport data (file_name ++ [0]))

/-! ### Helper lemmas about the stateful filter -/

/-- Once the `keep` flag is `false`, the stateful filter drops everything. -/
theorem filterKeep_false {α : Type} [DecidableEq α] (z : α) (s : List α) :
    filterKeep z false s = [] := by
  induction s with
  | nil => rfl
  | cons f rest ih =>
      by_cases h : f = z <;> simp [filterKeep, h, ih]

/-- The stateful filter started with `keep = true` keeps exactly the prefix
strictly before the first occurrence of `z`. -/
theorem filterKeep_true_takeWhile {α : Type} [DecidableEq α] (z : α) (s : List α) :
    filterKeep z true s = s.takeWhile (fun a => a != z) := by
  induction s with
  | nil => rfl
  | cons f rest ih =>
      by_cases h : f = z
      · subst h
        simp [filterKeep, filterKeep_false, List.takeWhile_cons]
      · simp [filterKeep, List.takeWhile_cons, h, ih]

/-- The prefix strictly before the first occurrence of `z` never holds `z`. -/
theorem not_mem_takeWhile_ne {α : Type} [DecidableEq α] (z : α) (s : List α) :
    z ∉ s.takeWhile (fun a => a != z) := by
  intro hm
  have hp := List.mem_takeWhile_imp hm
  simp at hp

/-! ### Claim theorems -/

/-- Claim C1 (refuted by the code, evaluated at a failing input): when the
native Base64 encoder returns the three-unit buffer `[1, 0, 2]` with declared
length 3, `encode_data_base64` is claimed to return all three declared units;
the code instead truncates at the embedded zero and returns `[1]`. -/
theorem encode_truncates_at_embedded_zero :
    encode_data_base64 (fun _ => [1, 0, 2]) [7] = [1] := by decide

/-- Claim C2 (refuted by the code, evaluated at the failing input
`[0x31, 0x00, 0x32]`): the encode/decode round trip is claimed to reproduce
`[49, 0, 50]` exactly; the code truncates the decoded buffer at its embedded
zero byte and yields `[49]`. -/
theorem base64_roundtrip_zero_embedded_truncates :
    decode_data_base64 decodeBase64
        ((encode_data_base64 (fun b => (encodeBase64 b).map Int.ofNat)
            [49, 0, 50]).map i8_to_u8)
      = [49] := by decide

/-- Claim C3 (refuted by the code, evaluated at the failing input `[0]`): the
round trip `decode_data_base64 (encode_data_base64 b)` is claimed to equal `b`
for every byte sequence; at `b = [0]` the decoded buffer `[0]` is truncated at
its zero byte, so the round trip yields `[]`. -/
theorem base64_roundtrip_fails_on_zero_byte :
    decode_data_base64 decodeBase64
        ((encode_data_base64 (fun b => (encodeBase64 b).map Int.ofNat)
            [0]).map i8_to_u8)
      = [] := by decide

/-- Claim C4: whenever the native decompression inverts the native compression
(the DEFLATE pair is outside the sources; its inverse property is the spec's
contract for it), a successful `compress_data` followed by `decompress_data`
on its output returns exactly the original byte sequence. -/
theorem compress_decompress_roundtrip (c d : List Nat → Option (List Nat))
    (hinv : ∀ b out, c b = some out → d out = some b)
    (b out : List Nat) (h : compress_data c b = Except.ok out) :
    decompress_data d out = Except.ok b := by
  cases hcb : c b with
  | none => simp [compress_data, hcb] at h
  | some buf =>
      simp [compress_data, hcb] at h
      subst h
      simp [decompress_data, hinv b buf hcb]

theorem compress_decompress_roundtrip_witness :
    decompress_data (fun l => some l) [3, 1] = Except.ok [3, 1] :=
  compress_decompress_roundtrip (fun l => some l) (fun l => some l)
    (fun b out h => by injection h with h2; rw [h2]) [3, 1] [3, 1] rfl

/-- Claim C5: `compress_data` and `decompress_data` return the error (with its
human-readable message and no other payload) exactly when the native call
returns a null pointer, and return `Ok` with the output bytes exactly when the
pointer is non-null. -/
theorem compress_decompress_null_mapping (c d : List Nat → Option (List Nat))
    (b : List Nat) :
    (c b = none → compress_data c b = Except.error "could not compress data")
    ∧ (∀ out, c b = some out → compress_data c b = Except.ok out)
    ∧ (d b = none → decompress_data d b = Except.error "could not compress data")
    ∧ (∀ out, d b = some out → decompress_data d b = Except.ok out) := by
  refine ⟨fun h => ?_, fun out h => ?_, fun h => ?_, fun out h => ?_⟩ <;>
    simp [compress_data, decompress_data, h]

theorem compress_decompress_null_mapping_witness :
    compress_data (fun _ => none) [1] = Except.error "could not compress data"
    ∧ decompress_data (fun _ => some [2]) [1] = Except.ok [2] :=
  ⟨(compress_decompress_null_mapping (fun _ => none) (fun _ => some [2]) [1]).1 rfl,
   (compress_decompress_null_mapping (fun _ => none) (fun _ => some [2]) [1]).2.2.2 [2] rfl⟩

/-- Claim C6: on the literal scenario input (ten bytes 49, the ASCII digit 1),
`compress_data` with the bundled native library returns exactly the fixed
15-byte sequence, and `decompress_data` on that sequence returns the ten
original bytes. -/
theorem compress_literal_scenario :
    compress_data nativeCompressBundled (List.replicate 10 49)
      = Except.ok [61, 193, 33, 1, 0, 0, 0, 128, 160, 77, 254, 63, 103, 3, 98]
    ∧ decompress_data nativeDecompressBundled
        [61, 193, 33, 1, 0, 0, 0, 128, 160, 77, 254, 63, 103, 3, 98]
      = Except.ok (List.replicate 10 49) := by
  constructor <;> rfl

/-- Claim C7 counterexample: for the file name bytes `[65, 0, 66]` (an embedded
null before the end), the code panics inside `CString::new(..).unwrap()` and
returns no value at all, while the specified behavior is to surface an
`InvalidArgument` error value to the caller: the failure is not delivered
through any result or error channel. -/
theorem export_embedded_null_no_error_channel :
    export_data_as_code (fun _ _ => true) [1] [65, 0, 66]
      = RustOutcome.panicked "called Result::unwrap() on an Err value: NulError"
    ∧ export_as_code_spec (fun _ _ => true) [1] [65, 0, 66]
      = Except.error ExportError.InvalidArgument :=
  ⟨rfl, rfl⟩

/-- Claim C7 amended: for every data buffer and every file name with an
embedded null byte, `export_data_as_code` detects the null before the native
call and fails fast by panicking (`unwrap` on the `CString::new` error) — the
outcome is the panic, identical for every native export function and every
data buffer (so the native boundary is never consulted), and no error value is
returned through the function's boolean channel. -/
theorem export_embedded_null_panics (native native2 : List Nat → List Nat → Bool)
    (data data2 file_name : List Nat) (h : file_name.contains 0 = true) :
    export_data_as_code native data file_name
      = RustOutcome.panicked "called Result::unwrap() on an Err value: NulError"
    ∧ export_data_as_code native data file_name
      = export_data_as_code native2 data2 file_name := by
  have hm : (0 : Nat) ∈ file_name := by simpa using h
  constructor <;> simp [export_data_as_code, cstring_new, hm]

theorem export_embedded_null_panics_witness :
    ([65, 0, 66] : List Nat).contains 0 = true
    ∧ export_data_as_code (fun _ _ => true) [2] [65, 0, 66]
        = RustOutcome.panicked "called Result::unwrap() on an Err value: NulError" :=
  ⟨rfl, (export_embedded_null_panics (fun _ _ => true) (fun _ _ => false)
      [2] [3] [65, 0, 66] rfl).1⟩

/-- Claim C8: `decode_data_base64` returns a plain byte sequence and has no
failure path: when the native decoder produces nothing (the simulation of a
failed native call, whose out-parameter stays 0), the wrapper returns the
empty sequence, and that value is literally the same as the result of a
legitimate decode of empty input — the two cases are indistinguishable to the
caller. -/
theorem decode_no_failure_path (nativeDecode : List Nat → List Nat)
    (data : List Nat) (h : nativeDecode data = []) :
    decode_data_base64 nativeDecode data = []
    ∧ decode_data_base64 nativeDecode data = decode_data_base64 decodeBase64 [] := by
  constructor <;> simp [decode_data_base64, h, decodeBase64]

theorem decode_no_failure_path_witness :
    (fun _ : List Nat => ([] : List Nat)) [5] = []
    ∧ decode_data_base64 (fun _ => []) [5] = [] :=
  ⟨rfl, (decode_no_failure_path (fun _ => []) [5] rfl).1⟩

/-- Claim C9: each marshaling call, as a transformer of the caller-visible
state, leaves the caller's input buffer unchanged, and an immediate retry from
the post-state returns the same result as the first call — for the compression,
decompression, encoding and decoding wrappers alike, on every branch. -/
theorem marshal_calls_frame_and_retry (c d : List Nat → Option (List Nat))
    (e : List Nat → List Int) (dec : List Nat → List Nat) (st : CallState) :
    ((marshalCall (compress_data c) st).1 = st
      ∧ (marshalCall (compress_data c) ((marshalCall (compress_data c) st).1)).2
          = (marshalCall (compress_data c) st).2)
    ∧ ((marshalCall (decompress_data d) st).1 = st
      ∧ (marshalCall (decompress_data d) ((marshalCall (decompress_data d) st).1)).2
          = (marshalCall (decompress_data d) st).2)
    ∧ ((marshalCall (encode_data_base64 e) st).1 = st
      ∧ (marshalCall (encode_data_base64 e) ((marshalCall (encode_data_base64 e) st).1)).2
          = (marshalCall (encode_data_base64 e) st).2)
    ∧ ((marshalCall (decode_data_base64 dec) st).1 = st
      ∧ (marshalCall (decode_data_base64 dec) ((marshalCall (decode_data_base64 dec) st).1)).2
          = (marshalCall (decode_data_base64 dec) st).2) :=
  ⟨⟨rfl, rfl⟩, ⟨rfl, rfl⟩, ⟨rfl, rfl⟩, ⟨rfl, rfl⟩⟩

/-- Claim C10: for every native buffer, the sequence returned by
`encode_data_base64` and by `decode_data_base64` holds no zero unit; when the
native output buffer of declared length contains a zero before that length,
the result is exactly the prefix strictly before the first zero, and otherwise
it is the whole buffer. -/
theorem encode_decode_drop_from_first_zero (e : List Nat → List Int)
    (dec : List Nat → List Nat) (data1 data2 : List Nat) :
    ((0 : Int) ∉ encode_data_base64 e data1
      ∧ encode_data_base64 e data1
          = (if (e data1).contains 0 then (e data1).takeWhile (fun a => a != 0)
             else e data1))
    ∧ ((0 : Nat) ∉ decode_data_base64 dec data2
      ∧ decode_data_base64 dec data2
          = (if (dec data2).contains 0 then (dec data2).takeWhile (fun a => a != 0)
             else dec data2)) := by
  refine ⟨⟨?_, ?_⟩, ⟨?_, ?_⟩⟩
  · by_cases hm : (0 : Int) ∈ e data1
    · simp [encode_data_base64, hm, filterKeep_true_takeWhile]
      exact not_mem_takeWhile_ne 0 (e data1)
    · simp [encode_data_base64, hm]
  · by_cases hm : (0 : Int) ∈ e data1
    · simp [encode_data_base64, hm, filterKeep_true_takeWhile]
    · simp [encode_data_base64, hm]
  · by_cases hm : (0 : Nat) ∈ dec data2
    · simp [decode_data_base64, hm, filterKeep_true_takeWhile]
      exact not_mem_takeWhile_ne 0 (dec data2)
    · simp [decode_data_base64, hm]
  · by_cases hm : (0 : Nat) ∈ dec data2
    · simp [decode_data_base64, hm, filterKeep_true_takeWhile]
    · simp [decode_data_base64, hm]
